import Mathlib

/-!
Shallow embedding of `LibCarla/source/carla/nav/Navigation.cpp` (CARLA pedestrian
navigation facade) and verification of its specification claims.

Float-valued quantities are modelled exactly as rationals: the operations the
facade itself performs on coordinates are permutations, additions and
multiplications, all exact. The opaque Detour engine (navmesh query, crowd) is
modelled as explicit function records / state, following the specification's
description of it as an injected capability interface; everything else is
translated from the C++ source.
-/

namespace CarlaNav

/-- A 3D point / vector with exact coordinates standing in for `float[3]` or
    `carla::geom::Location`. -/
structure Vec3 where
  x : ℚ
  y : ℚ
  z : ℚ
deriving DecidableEq, Repr

/-- Host (Unreal) to engine (Recast) coordinates. Source (Navigation.cpp:222):
    `float m_spos[3] = { from.x, from.z, from.y };` — the second and third axes
    are swapped. -/
def hostToEngine (v : Vec3) : Vec3 := ⟨v.x, v.z, v.y⟩

/-- Engine to host coordinates. Source (Navigation.cpp:255):
    `path.emplace_back(m_straightPath[i], m_straightPath[i+2], m_straightPath[i+1]);`
    — again swapping the second and third axes. -/
def engineToHost (v : Vec3) : Vec3 := ⟨v.x, v.z, v.y⟩

/-- Modelled from the spec: sample polygon flag constants of the vendored Recast
    sample headers (not under src/): DISABLED = 0x10, ALL = 0xffff. The default
    filter "excludes disabled polygons and includes everything else". -/
def SAMPLE_POLYFLAGS_DISABLED : Nat := 16

/-- Modelled from the spec: see SAMPLE_POLYFLAGS_DISABLED. -/
def SAMPLE_POLYFLAGS_ALL : Nat := 65535

/-- The `dtQueryFilter`: include / exclude flag bitsets (spec section on
    QueryFilter; the engine-side cost model is irrelevant to the claims). -/
structure QueryFilter where
  includeFlags : Nat
  excludeFlags : Nat
deriving DecidableEq, Repr

/-- The default filter built in `Navigation::GetPath` (Navigation.cpp:213-217):
    include = ALL xor DISABLED, exclude = 0. -/
def defaultFilter : QueryFilter :=
  ⟨Nat.xor SAMPLE_POLYFLAGS_ALL SAMPLE_POLYFLAGS_DISABLED, 0⟩

/-- Modelled from the spec: the opaque spatial engine (`dtNavMeshQuery`) as a
    capability record: nearest-polygon lookup (0 = no polygon found), corridor
    search, closest point on a polygon, and straight-path simplification.
    Polygon references are `Nat`. -/
structure NavQuery where
  findNearestPoly : Vec3 → Vec3 → QueryFilter → Nat
  findPath : Nat → Nat → Vec3 → Vec3 → QueryFilter → List Nat
  closestPointOnPoly : Nat → Vec3 → Vec3
  findStraightPath : Vec3 → Vec3 → List Nat → List Vec3

/-- The fixed search extent box of `Navigation::GetPath`
    (Navigation.cpp:206-209): `m_polyPickExt = {2, 4, 2}`. -/
def polyPickExt : Vec3 := ⟨2, 4, 2⟩

/-- Embeds `Navigation::GetPath` (Navigation.cpp:189-259), returning `none` where the
    source returns `false` and `some path` where it returns `true`.
    The inline coordinate tuples are written exactly as the source writes them;
    `binaryMesh` is the retained `_binaryMesh` buffer whose emptiness is the
    cheap pre-check. Note the source does not re-check `m_nstraightPath == 0`
    after `findStraightPath`: a zero-waypoint simplification still returns
    `true` with an empty output vector. -/
def GetPath (q : NavQuery) (binaryMesh : List Nat) (fromLoc toLoc : Vec3)
    (filter : Option QueryFilter) : Option (List Vec3) :=
  if binaryMesh.length = 0 then none
  else
    let filt := filter.getD defaultFilter
    let m_spos : Vec3 := ⟨fromLoc.x, fromLoc.z, fromLoc.y⟩
    let m_epos : Vec3 := ⟨toLoc.x, toLoc.z, toLoc.y⟩
    let m_startRef := q.findNearestPoly m_spos polyPickExt filt
    let m_endRef := q.findNearestPoly m_epos polyPickExt filt
    if m_startRef = 0 ∨ m_endRef = 0 then none
    else
      let m_polys := q.findPath m_startRef m_endRef m_spos m_epos filt
      match m_polys.getLast? with
      | none => none        -- m_npolys == 0 (Navigation.cpp:235-237)
      | some lastPoly =>
        -- partial-path clamp (Navigation.cpp:240-243)
        let epos := if lastPoly ≠ m_endRef then q.closestPointOnPoly lastPoly m_epos
                    else m_epos
        let straight := q.findStraightPath m_spos epos m_polys
        some (straight.map (fun p => ⟨p.x, p.z, p.y⟩))

/-- Engine-space body of the path query as the spec describes it (nearest
    polygons, corridor search, partial-path clamping, simplification), with no
    coordinate translation inside; used to state that `GetPath` is exactly
    boundary translation around this body. -/
def GetPathEngine (q : NavQuery) (spos epos : Vec3) (filt : QueryFilter) :
    Option (List Vec3) :=
  let startRef := q.findNearestPoly spos polyPickExt filt
  let endRef := q.findNearestPoly epos polyPickExt filt
  if startRef = 0 ∨ endRef = 0 then none
  else
    let polys := q.findPath startRef endRef spos epos filt
    match polys.getLast? with
    | none => none
    | some lastPoly =>
      let epos2 := if lastPoly ≠ endRef then q.closestPointOnPoly lastPoly epos else epos
      some (q.findStraightPath spos epos2 polys)

/-! ## Binary navmesh loader (`Navigation::Load`, Navigation.cpp:55-139)

The input buffer is a `List Nat` of bytes. The C++ `memcpy` reads from
`&content[pos]` before any bounds check, so a read past the end of the vector
touches whatever memory follows: reads past the end return `oracle`-supplied
junk, and every such access is recorded in an `oobAccess` flag. All integers
are little-endian (x86 native byte order), packed (`#pragma pack(1)`). -/

/-- One byte of the buffer; in-range reads come from the buffer, out-of-range
    reads from the junk oracle. A physical byte is < 256. -/
def byteAt (content : List Nat) (oracle : Nat → Nat) (i : Nat) : Nat :=
  (content.getD i (oracle i)) % 256

/-- Whether a `memcpy` of `n` bytes starting at `pos` reaches past the end of
    the buffer. -/
def oobB (content : List Nat) (pos n : Nat) : Bool := content.length < pos + n

/-- Little-endian unsigned 32-bit read. -/
def readU32 (content : List Nat) (oracle : Nat → Nat) (pos : Nat) : Nat :=
  byteAt content oracle pos + 256 * byteAt content oracle (pos + 1) +
    65536 * byteAt content oracle (pos + 2) + 16777216 * byteAt content oracle (pos + 3)

/-- Two's-complement signed 32-bit read (the `int` fields of the headers). -/
def readI32 (content : List Nat) (oracle : Nat → Nat) (pos : Nat) : Int :=
  if readU32 content oracle pos < 2 ^ 31 then (readU32 content oracle pos : Int)
  else (readU32 content oracle pos : Int) - 2 ^ 32

/-- Little-endian unsigned 64-bit read (the `dtTileRef` field). -/
def readU64 (content : List Nat) (oracle : Nat → Nat) (pos : Nat) : Nat :=
  readU32 content oracle pos + 4294967296 * readU32 content oracle (pos + 4)

/-- A `memcpy` of `n` bytes starting at `pos`. -/
def readBytes (content : List Nat) (oracle : Nat → Nat) (pos n : Nat) : List Nat :=
  (List.range n).map (fun i => byteAt content oracle (pos + i))

/-- The magic constant `'M'<<24 | 'S'<<16 | 'E'<<8 | 'T'` (Navigation.cpp:56). -/
def NAVMESHSET_MAGIC : Int := 1297302868

/-- Navigation.cpp:57. -/
def NAVMESHSET_VERSION : Int := 1

/-- Value of `sizeof(NavMeshSetHeader)` under `#pragma pack(1)`: `int magic` +
    `int version` + `int numTiles` + `dtNavMeshParams params` (three `float`
    origin, two `float` tile sizes, two `int` capacities = 28 bytes) = 40. -/
def headerSize : Nat := 40

/-- Value of `sizeof(NavMeshTileHeader)` under `#pragma pack(1)`: `dtTileRef tileRef`
    (uint64) + `int dataSize` = 12. -/
def tileHeaderSize : Nat := 12

/-- Result of parsing a navmesh buffer: `ok` is the boolean the source
    returns, `tiles` the `(tileRef, data)` payloads handed to `mesh->addTile`
    (empty when the partially built mesh is freed on failure), `oobAccess`
    whether any `memcpy` read past the end of the buffer. -/
structure LoadOutcome where
  ok : Bool
  tiles : List (Nat × List Nat)
  oobAccess : Bool
deriving DecidableEq, Repr

/-- The tile-reading loop of `Navigation::Load` (Navigation.cpp:90-121).
    `fuel` is the remaining iteration count (`numTiles - i`); `acc` holds the
    tiles added so far, most recent first. `dtAlloc` is modelled as always
    succeeding. The two bounds checks are written exactly as in the source:
    `pos >= content.size()` right after the tile header is consumed, and
    `pos > content.size()` right after the tile data is consumed. -/
def parseTiles (content : List Nat) (oracle : Nat → Nat) :
    Nat → Nat → List (Nat × List Nat) → Bool → LoadOutcome
  | _, 0, acc, oobAcc => ⟨true, acc.reverse, oobAcc⟩
  | pos, fuel + 1, acc, oobAcc =>
    let oob1 := oobAcc || oobB content pos tileHeaderSize
    let tileRef := readU64 content oracle pos
    let dataSize := readI32 content oracle (pos + 8)
    let pos2 := pos + tileHeaderSize
    if content.length ≤ pos2 then ⟨false, [], oob1⟩
    else if tileRef = 0 ∨ dataSize = 0 then ⟨true, acc.reverse, oob1⟩
    else
      -- static_cast<size_t>(tileHeader.dataSize)
      let n := (dataSize % (2 ^ 64 : Int)).toNat
      let oob2 := oob1 || oobB content pos2 n
      let dat := readBytes content oracle pos2 n
      let pos3 := pos2 + n
      if content.length < pos3 then ⟨false, [], oob2⟩
      else parseTiles content oracle pos3 fuel ((tileRef, dat) :: acc) oob2

/-- Embeds `Navigation::Load` on a memory buffer as a pure parse
    (Navigation.cpp:55-121): read the 40-byte file header, check magic and
    version, initialize the mesh from the header params (`initOk` models the
    opaque `dtNavMesh::init` verdict), then run the tile loop `numTiles`
    times (never, if `numTiles <= 0`). -/
def LoadParse (content : List Nat) (oracle : Nat → Nat) (initOk : Bool) : LoadOutcome :=
  let oobH := oobB content 0 headerSize
  let magic := readI32 content oracle 0
  let version := readI32 content oracle 4
  let numTiles := readI32 content oracle 8
  if magic ≠ NAVMESHSET_MAGIC ∨ version ≠ NAVMESHSET_VERSION then ⟨false, [], oobH⟩
  else if initOk = false then ⟨false, [], oobH⟩
  else parseTiles content oracle headerSize numTiles.toNat [] oobH

/-! ## Crowd simulator model and facade state -/

/-- The `dtCrowdAgentParams` fields that `Navigation::AddWalker` sets
    (Navigation.cpp:270-286). -/
structure AgentParams where
  radius : ℚ
  height : ℚ
  maxAcceleration : ℚ
  maxSpeed : ℚ
  collisionQueryRange : ℚ
  pathOptimizationRange : ℚ
  updateFlags : Nat
  obstacleAvoidanceType : Nat
  separationWeight : ℚ
deriving DecidableEq, Repr

/-- A `dtCrowdAgent`: position, current and desired velocity (engine
    coordinates), parameters, committed move target, active flag. -/
structure Agent where
  npos : Vec3
  vel : Vec3
  dvel : Vec3
  params : AgentParams
  targetPos : Option Vec3
  active : Bool
deriving DecidableEq, Repr

/-- Modelled from the spec: the opaque `dtCrowd` pool. Since the facade never
    removes an agent, the slots in use are exactly a prefix of the pool and
    are modelled as a list indexed by slot. -/
structure Crowd where
  agents : List Agent
deriving DecidableEq, Repr

/-- Navigation.cpp:21. -/
def MAX_AGENTS : Nat := 500

/-- Navigation.cpp:22 (`0.3f`). -/
def AGENT_RADIUS : ℚ := 3 / 10

/-- Modelled from the spec: `dtCrowd::addAgent` "fails (returns an invalid-slot
    sentinel) if the pool is at capacity" (capacity `MAX_AGENTS` from
    `dtCrowd::init`, Navigation.cpp:148); otherwise occupies a fresh slot and
    returns its index. -/
def Crowd.addAgent (c : Crowd) (pos : Vec3) (p : AgentParams) : Int × Crowd :=
  if c.agents.length < MAX_AGENTS then
    ((c.agents.length : Int),
      ⟨c.agents ++ [⟨pos, ⟨0, 0, 0⟩, ⟨0, 0, 0⟩, p, none, true⟩]⟩)
  else (-1, c)

/-- Modelled from the spec: `dtCrowd::getAgent` — the agent record in the given
    slot, `none` for a slot outside the pool. -/
def Crowd.getAgent (c : Crowd) (i : Int) : Option Agent :=
  if 0 ≤ i then c.agents[i.toNat]? else none

/-- Modelled from the spec: `dtCrowd::requestMoveTarget` — "commits the new
    target" for the agent in the given slot. -/
def Crowd.requestMoveTarget (c : Crowd) (i : Int) (_targetRef : Nat) (pos : Vec3) :
    Bool × Crowd :=
  if 0 ≤ i then
    match c.agents[i.toNat]? with
    | some a => (true, ⟨c.agents.set i.toNat { a with targetPos := some pos }⟩)
    | none => (false, c)
  else (false, c)

/-- Modelled from the spec: the crowd's agent-placement query half extents
    (`dtCrowd::getQueryHalfExtents`, derived in the engine from the agent
    radius). -/
def crowdHalfExtents : Vec3 := ⟨3 / 5, 9 / 20, 3 / 5⟩

/-- The crowd's filter 0 after `CreateCrowd` ran
    `getEditableFilter(0)->setExcludeFlags(SAMPLE_POLYFLAGS_DISABLED)`
    (Navigation.cpp:151); the engine default include mask is ALL. -/
def crowdFilter0 : QueryFilter := ⟨SAMPLE_POLYFLAGS_ALL, SAMPLE_POLYFLAGS_DISABLED⟩

/-- The facade's mutable members (`Navigation` class state): the retained raw
    buffer, the loaded mesh tiles, whether a query object was built, the crowd,
    the id-to-slot map `_mappedId`, the per-walker `_baseHeight` and
    `yaw_walkers` maps, and `_delta_seconds`. The std maps are modelled as
    functions to `Option`. -/
structure NavState where
  binaryMesh : List Nat
  navMeshTiles : Option (List (Nat × List Nat))
  navQueryInit : Bool
  crowd : Option Crowd
  mappedId : Nat → Option Int
  baseHeight : Nat → Option ℚ
  yawWalkers : Nat → Option ℚ
  deltaSeconds : ℚ

/-- A fresh `Navigation` object: nothing loaded, empty maps. -/
def initState : NavState :=
  ⟨[], none, false, none, fun _ => none, fun _ => none, fun _ => none, 0⟩

/-- Point update of a function-modelled std map. -/
def mapSet {α : Type} (m : Nat → Option α) (k : Nat) (v : α) : Nat → Option α :=
  fun i => if i = k then some v else m i

/-- Embeds `Navigation::CreateCrowd` (Navigation.cpp:141-186): build the pool once;
    the four avoidance-quality tiers live inside the opaque crowd and have no
    observable effect on any claim, so only pool construction is modelled. -/
def CreateCrowd (s : NavState) : NavState :=
  match s.crowd with
  | some _ => s
  | none => { s with crowd := some ⟨[]⟩ }

/-- State effect of `Navigation::Load` (Navigation.cpp:123-138): every failure
    path returns before any member is touched; on success the mesh is
    exchanged, the query object rebuilt, the crowd created if absent, and the
    raw buffer retained in `_binaryMesh`. -/
def NavLoad (s : NavState) (content : List Nat) (oracle : Nat → Nat)
    (initOk : Bool) : NavState :=
  let r := LoadParse content oracle initOk
  if r.ok then
    CreateCrowd { s with
      navMeshTiles := some r.tiles
      navQueryInit := true
      binaryMesh := content }
  else s

/-! ## Walker lifecycle (`AddWalker`, `SetWalkerTarget`, accessors) -/

/-- The parameters `Navigation::AddWalker` fills in (Navigation.cpp:270-286):
    `updateFlags` is the or of DT_CROWD_ANTICIPATE_TURNS (1),
    DT_CROWD_OBSTACLE_AVOIDANCE (2), DT_CROWD_SEPARATION (4),
    DT_CROWD_OPTIMIZE_VIS (8), DT_CROWD_OPTIMIZE_TOPO (16) from the vendored
    DetourCrowd header. -/
def walkerParams (base_offset : ℚ) : AgentParams :=
  { radius := AGENT_RADIUS
    height := base_offset * 2
    maxAcceleration := 8
    maxSpeed := 147 / 100
    collisionQueryRange := AGENT_RADIUS * 12
    pathOptimizationRange := AGENT_RADIUS * 30
    updateFlags := 31
    obstacleAvoidanceType := 3
    separationWeight := 1 / 2 }

/-- Embeds `Navigation::AddWalker` (Navigation.cpp:262-306). -/
def AddWalker (s : NavState) (id : Nat) (fromLoc : Vec3) (base_offset : ℚ) :
    Bool × NavState :=
  match s.crowd with
  | none => (false, s)
  | some c =>
    let r := c.addAgent (hostToEngine fromLoc) (walkerParams base_offset)
    if r.1 = -1 then (false, s)
    else
      (true, { s with
        crowd := some r.2
        mappedId := mapSet s.mappedId id r.1
        baseHeight := mapSet s.baseHeight id base_offset
        yawWalkers := mapSet s.yawWalkers id 0 })

/-- Iterate `AddWalker` over identities `f 0, f 1, ...` at a fixed position and
    base offset; `addMany f pos off s n` is the state after `n` calls. -/
def addMany (f : Nat → Nat) (pos : Vec3) (off : ℚ) (s : NavState) : Nat → NavState
  | 0 => s
  | n + 1 => (AddWalker (addMany f pos off s n) (f n) pos off).2

/-- Embeds `Navigation::SetWalkerTargetIndex` (Navigation.cpp:319-333). The source
    dereferences `_crowd` unconditionally; a missing crowd is modelled as the
    failure it would be under the facade's guarded use. -/
def SetWalkerTargetIndex (q : NavQuery) (s : NavState) (index : Int) (toLoc : Vec3) :
    Bool × NavState :=
  if index = -1 then (false, s)
  else
    match s.crowd with
    | none => (false, s)
    | some c =>
      let pointTo := hostToEngine toLoc
      let targetRef := q.findNearestPoly pointTo crowdHalfExtents crowdFilter0
      if targetRef = 0 then (false, s)
      else
        let r := c.requestMoveTarget index targetRef pointTo
        (r.1, { s with crowd := some r.2 })

/-- Embeds `Navigation::SetWalkerTarget` (Navigation.cpp:309-316). -/
def SetWalkerTarget (q : NavQuery) (s : NavState) (id : Nat) (toLoc : Vec3) :
    Bool × NavState :=
  match s.mappedId id with
  | none => (false, s)
  | some index => SetWalkerTargetIndex q s index toLoc

/-! ## Per-walker accessors -/

/-- The output of `GetWalkerTransform`: `trans.location` and
    `trans.rotation.yaw` (the only rotation component the source writes,
    flattened here). -/
structure Transform where
  location : Vec3
  yaw : ℚ
deriving DecidableEq, Repr

/-- C `fmod` on exact rationals: remainder of truncated division, carrying the
    dividend's sign. -/
def fmodQ (a b : ℚ) : ℚ :=
  a - b * ((if a / b < 0 then ⌈a / b⌉ else ⌊a / b⌋ : ℤ) : ℚ)

/-- Embeds `Navigation::GetWalkerTransform` (Navigation.cpp:369-408). `atan2deg`
    models the opaque libm computation
    `atan2f(agent->dvel[2], agent->dvel[0]) * (180 / pi)`.
    A missing `_baseHeight` entry only logs and proceeds with offset 0; the
    `yaw_walkers[id]` read uses std::map `operator[]` whose default is `0.0f`.
    On success the source stores the returned yaw back into `yaw_walkers`. -/
def GetWalkerTransform (atan2deg : ℚ → ℚ → ℚ) (s : NavState) (id : Nat) :
    Option Transform × NavState :=
  match s.mappedId id with
  | none => (none, s)
  | some index =>
    if index = -1 then (none, s)
    else
      match s.crowd.bind (fun c => c.getAgent index) with
      | none => (none, s)   -- slot outside the pool: unreachable under facade use
      | some agent =>
        if agent.active = false then (none, s)
        else
          let baseOffset := (s.baseHeight id).getD 0
          let loc : Vec3 := ⟨agent.npos.x, agent.npos.z, agent.npos.y + baseOffset - 2 / 25⟩
          let yaw := atan2deg agent.dvel.z agent.dvel.x
          let yawOld := (s.yawWalkers id).getD 0
          let shortest_angle := fmodQ (yaw - yawOld + 540) 360 - 180
          let rotation_speed : ℚ := 4
          let newYaw := yawOld + shortest_angle * rotation_speed * s.deltaSeconds
          (some ⟨loc, newYaw⟩, { s with yawWalkers := mapSet s.yawWalkers id newYaw })

/-- Embeds `Navigation::GetWalkerSpeed` (Navigation.cpp:410-427). The declared return
    type is `float`; both failure paths execute `return false`, which converts
    to `0.0f`. The success path returns the euclidean norm of `agent->vel`. -/
noncomputable def GetWalkerSpeed (s : NavState) (id : Nat) : ℝ :=
  match s.mappedId id with
  | none => 0
  | some index =>
    if index = -1 then 0
    else
      match s.crowd.bind (fun c => c.getAgent index) with
      | none => 0
      | some agent =>
        Real.sqrt ((agent.vel.x * agent.vel.x + agent.vel.y * agent.vel.y +
          agent.vel.z * agent.vel.z : ℚ) : ℝ)

/-! ## Random reachable point (`GetRandomLocationWithoutLock`,
Navigation.cpp:434-463) -/

/-- The `do { ... } while (1)` sampling loop. `samples k` is the outcome of the
    k-th `findRandomPoint` call (`none` = a non-DT_SUCCESS status); `fuel`
    bounds the unbounded source loop so the embedding is total, `none` meaning
    the loop has not exited within `fuel` iterations. A successful sample is
    accepted when `maxHeight == -1.0f || (maxHeight >= 0.0f && location.z <=
    maxHeight)`. -/
def randomLoop (samples : Nat → Option Vec3) (maxHeight : ℚ) :
    Nat → Nat → Option Vec3
  | _, 0 => none
  | k, fuel + 1 =>
    match samples k with
    | none => randomLoop samples maxHeight (k + 1) fuel
    | some p =>
      let loc : Vec3 := ⟨p.x, p.z, p.y⟩
      if maxHeight = -1 ∨ (0 ≤ maxHeight ∧ loc.z ≤ maxHeight) then some loc
      else randomLoop samples maxHeight (k + 1) fuel

/-- Embeds `Navigation::GetRandomLocationWithoutLock`: run the sampling loop from the
    first sample; whenever the source's loop exits, it returns `true` with the
    accepted location. -/
def GetRandomLocationWithoutLock (samples : Nat → Option Vec3) (maxHeight : ℚ)
    (fuel : Nat) : Option Vec3 :=
  randomLoop samples maxHeight 0 fuel

/-! ## Declared tile layout

To reason about truncation and early termination, a buffer's declared tile
records are described positionally: `containsRecordsB content oracle p recs`
says that starting at byte offset `p` the buffer declares the `(tileRef,
dataSize)` records `recs` back to back, each with a nonzero reference and a
positive size. `recordsExtent p recs` is the byte offset just past the last
record — the "declared end" of that tile. -/

/-- See module docstring above. Bool-valued so concrete instances evaluate. -/
def containsRecordsB (content : List Nat) (oracle : Nat → Nat) :
    Nat → List (Nat × Int) → Bool
  | _, [] => true
  | p, (ref, sz) :: rest =>
    decide (readU64 content oracle p = ref) &&
      decide (readI32 content oracle (p + 8) = sz) &&
      decide (ref ≠ 0) && decide (0 < sz) &&
      containsRecordsB content oracle (p + 12 + sz.toNat) rest

/-- Offset one past the end of the last of the records laid out from `p`. -/
def recordsExtent : Nat → List (Nat × Int) → Nat
  | p, [] => p
  | p, (_, sz) :: rest => recordsExtent (p + 12 + sz.toNat) rest

/-! ## Arithmetic facts about the byte reads -/

theorem byteAt_lt (content : List Nat) (oracle : Nat → Nat) (i : Nat) :
    byteAt content oracle i < 256 :=
  Nat.mod_lt _ (by norm_num)

theorem readU32_lt (content : List Nat) (oracle : Nat → Nat) (pos : Nat) :
    readU32 content oracle pos < 2 ^ 32 := by
  have h0 := byteAt_lt content oracle pos
  have h1 := byteAt_lt content oracle (pos + 1)
  have h2 := byteAt_lt content oracle (pos + 2)
  have h3 := byteAt_lt content oracle (pos + 3)
  unfold readU32
  omega

theorem readI32_range (content : List Nat) (oracle : Nat → Nat) (pos : Nat) :
    -(2 ^ 31) ≤ readI32 content oracle pos ∧ readI32 content oracle pos < 2 ^ 31 := by
  have h := readU32_lt content oracle pos
  unfold readI32
  split <;> constructor <;> omega

/-- In-range bytes do not depend on the junk oracle and survive truncation:
    a read at `i < t ≤ B.length` is the same in `B.take t` as in `B`. -/
theorem byteAt_take (B : List Nat) (o1 o2 : Nat → Nat) (t i : Nat)
    (ht : t ≤ B.length) (hi : i < t) :
    byteAt (B.take t) o2 i = byteAt B o1 i := by
  have hiB : i < B.length := lt_of_lt_of_le hi ht
  have h1 : (B.take t).get? i = B.get? i := by
    rw [List.get?_eq_getElem?, List.get?_eq_getElem?, List.getElem?_take_of_lt hi]
  unfold byteAt
  rw [List.getD, List.getD, h1, List.get?_eq_getElem?, List.getElem?_eq_getElem hiB]
  rfl

theorem readU32_take (B : List Nat) (o1 o2 : Nat → Nat) (t pos : Nat)
    (ht : t ≤ B.length) (h : pos + 4 ≤ t) :
    readU32 (B.take t) o2 pos = readU32 B o1 pos := by
  unfold readU32
  rw [byteAt_take B o1 o2 t pos ht (by omega),
    byteAt_take B o1 o2 t (pos + 1) ht (by omega),
    byteAt_take B o1 o2 t (pos + 2) ht (by omega),
    byteAt_take B o1 o2 t (pos + 3) ht (by omega)]

theorem readI32_take (B : List Nat) (o1 o2 : Nat → Nat) (t pos : Nat)
    (ht : t ≤ B.length) (h : pos + 4 ≤ t) :
    readI32 (B.take t) o2 pos = readI32 B o1 pos := by
  unfold readI32
  rw [readU32_take B o1 o2 t pos ht h]

theorem readU64_take (B : List Nat) (o1 o2 : Nat → Nat) (t pos : Nat)
    (ht : t ≤ B.length) (h : pos + 8 ≤ t) :
    readU64 (B.take t) o2 pos = readU64 B o1 pos := by
  unfold readU64
  rw [readU32_take B o1 o2 t pos ht (by omega),
    readU32_take B o1 o2 t (pos + 4) ht (by omega)]

/-- The layout only grows to the right. -/
theorem recordsExtent_ge (recs : List (Nat × Int)) :
    ∀ p, p ≤ recordsExtent p recs := by
  induction recs with
  | nil => intro p; exact le_rfl
  | cons r rest ih =>
    intro p
    calc p ≤ p + 12 + r.2.toNat := by omega
    _ ≤ recordsExtent (p + 12 + r.2.toNat) rest := ih _

/-! ## Unfolding equations and structural lemmas for the tile loop -/

theorem parseTiles_zero (content : List Nat) (oracle : Nat → Nat) (pos : Nat)
    (acc : List (Nat × List Nat)) (oobAcc : Bool) :
    parseTiles content oracle pos 0 acc oobAcc = ⟨true, acc.reverse, oobAcc⟩ := rfl

theorem parseTiles_succ (content : List Nat) (oracle : Nat → Nat) (pos fuel : Nat)
    (acc : List (Nat × List Nat)) (oobAcc : Bool) :
    parseTiles content oracle pos (fuel + 1) acc oobAcc =
      if content.length ≤ pos + tileHeaderSize then
        ⟨false, [], oobAcc || oobB content pos tileHeaderSize⟩
      else if readU64 content oracle pos = 0 ∨ readI32 content oracle (pos + 8) = 0 then
        ⟨true, acc.reverse, oobAcc || oobB content pos tileHeaderSize⟩
      else
        if content.length <
            pos + tileHeaderSize + ((readI32 content oracle (pos + 8)) % (2 ^ 64 : Int)).toNat then
          ⟨false, [], (oobAcc || oobB content pos tileHeaderSize) ||
            oobB content (pos + tileHeaderSize)
              ((readI32 content oracle (pos + 8)) % (2 ^ 64 : Int)).toNat⟩
        else
          parseTiles content oracle
            (pos + tileHeaderSize + ((readI32 content oracle (pos + 8)) % (2 ^ 64 : Int)).toNat)
            fuel
            ((readU64 content oracle pos,
              readBytes content oracle (pos + tileHeaderSize)
                ((readI32 content oracle (pos + 8)) % (2 ^ 64 : Int)).toNat) :: acc)
            ((oobAcc || oobB content pos tileHeaderSize) ||
              oobB content (pos + tileHeaderSize)
                ((readI32 content oracle (pos + 8)) % (2 ^ 64 : Int)).toNat) := rfl

/-- Once an out-of-range access happened, the flag stays set whatever the loop
    does afterwards. -/
theorem parseTiles_oob_mono (content : List Nat) (oracle : Nat → Nat) :
    ∀ (fuel pos : Nat) (acc : List (Nat × List Nat)),
    (parseTiles content oracle pos fuel acc true).oobAccess = true := by
  intro fuel
  induction fuel with
  | zero => intro pos acc; rfl
  | succ f ih =>
    intro pos acc
    rw [parseTiles_succ]
    split
    · simp
    · split
      · simp
      · split
        · simp
        · exact ih _ _

/-- A positive `int` dataSize survives the `static_cast<size_t>`. -/
theorem dataSize_cast (content : List Nat) (oracle : Nat → Nat) (pos : Nat) (sz : Int)
    (h : readI32 content oracle pos = sz) (hpos : 0 < sz) :
    ((readI32 content oracle pos) % (2 ^ 64 : Int)).toNat = sz.toNat := by
  have hr := readI32_range content oracle pos
  rw [h] at hr ⊢
  rw [Int.emod_eq_of_lt (by omega) (by omega)]

/-- Truncation inside the declared records makes the tile loop fail: if the
    buffer `B` declares the (nonempty) record list `recs` from offset `p`, all
    within `B`, and the loop runs on `B` truncated to `t` bytes with
    `t` strictly before the declared end of the last record, it returns
    `ok = false`. -/
theorem parseTiles_trunc (B : List Nat) (oB oT : Nat → Nat) :
    ∀ (recs : List (Nat × Int)) (p fuel t : Nat) (acc : List (Nat × List Nat))
      (oobAcc : Bool),
    recs ≠ [] →
    containsRecordsB B oB p recs = true →
    recs.length ≤ fuel →
    t < recordsExtent p recs →
    recordsExtent p recs ≤ B.length →
    (parseTiles (B.take t) oT p fuel acc oobAcc).ok = false := by
  intro recs
  induction recs with
  | nil => intro p fuel t acc oobAcc hne; exact absurd rfl hne
  | cons r rest ih =>
    rintro p fuel t acc oobAcc - hcont hfuel ht hext
    obtain ⟨ref, sz⟩ := r
    simp only [containsRecordsB, Bool.and_eq_true, decide_eq_true_eq] at hcont
    obtain ⟨⟨⟨⟨href, hsz⟩, hrefne⟩, hszpos⟩, hrest⟩ := hcont
    obtain ⟨f, rfl⟩ : ∃ f, fuel = f + 1 := by
      refine ⟨fuel - 1, ?_⟩
      have : 1 ≤ fuel := le_trans (by simp) hfuel
      omega
    have hestep : p + 12 + sz.toNat ≤ recordsExtent p ((ref, sz) :: rest) := by
      simpa [recordsExtent] using recordsExtent_ge rest (p + 12 + sz.toNat)
    have htB : t ≤ B.length := le_of_lt (lt_of_lt_of_le ht hext)
    have hlen : (B.take t).length = t := by
      rw [List.length_take]; omega
    rw [parseTiles_succ]
    by_cases hc1 : t ≤ p + tileHeaderSize
    · rw [if_pos (by rw [hlen]; exact hc1)]
    · -- the full tile header lies inside the truncated buffer
      rw [if_neg (by rw [hlen]; exact hc1)]
      have hszr := readI32_range B oB (p + 8)
      have h12 : p + 12 ≤ t := by unfold tileHeaderSize at hc1; omega
      have hrefT : readU64 (B.take t) oT p = ref := by
        rw [readU64_take B oB oT t p htB (by omega)]; exact href
      have hszT : readI32 (B.take t) oT (p + 8) = sz := by
        rw [readI32_take B oB oT t (p + 8) htB (by omega)]; exact hsz
      rw [if_neg (by push_neg; rw [hrefT, hszT]; exact ⟨hrefne, by omega⟩)]
      have hcast : ((readI32 (B.take t) oT (p + 8)) % (2 ^ 64 : Int)).toNat = sz.toNat :=
        dataSize_cast (B.take t) oT (p + 8) sz hszT hszpos
      rw [hcast]
      by_cases hc2 : t < p + tileHeaderSize + sz.toNat
      · rw [if_pos (by rw [hlen]; exact hc2)]
      · -- the whole record lies inside the truncated buffer: recurse
        rw [if_neg (by rw [hlen]; exact hc2)]
        have hrestne : rest ≠ [] := by
          intro hnil
          rw [hnil] at ht
          simp only [recordsExtent] at ht
          unfold tileHeaderSize at hc2
          omega
        have hih := ih (p + 12 + sz.toNat) f t
          ((readU64 (B.take t) oT p,
            readBytes (B.take t) oT (p + tileHeaderSize) sz.toNat) :: acc)
          ((oobAcc || oobB (B.take t) p tileHeaderSize) ||
            oobB (B.take t) (p + tileHeaderSize) sz.toNat)
          hrestne hrest
          (by simp only [List.length_cons] at hfuel; omega)
          (by simpa [recordsExtent] using ht)
          (by simpa [recordsExtent] using hext)
        simpa [tileHeaderSize] using hih

/-- Walking over fully-present, valid records: the loop consumes them all
    without failing, without out-of-range reads, accumulating one tile per
    record, and continues at the declared end with the remaining fuel. -/
theorem parseTiles_walk (B : List Nat) (o : Nat → Nat) :
    ∀ (recs : List (Nat × Int)) (p fuel : Nat) (acc : List (Nat × List Nat))
      (oobAcc : Bool),
    containsRecordsB B o p recs = true →
    recordsExtent p recs ≤ B.length →
    recs.length ≤ fuel →
    ∃ acc2, parseTiles B o p fuel acc oobAcc =
        parseTiles B o (recordsExtent p recs) (fuel - recs.length) acc2 oobAcc ∧
      acc2.length = acc.length + recs.length := by
  intro recs
  induction recs with
  | nil =>
    intro p fuel acc oobAcc _ _ _
    exact ⟨acc, by simp [recordsExtent], by simp⟩
  | cons r rest ih =>
    rintro p fuel acc oobAcc hcont hext hfuel
    obtain ⟨ref, sz⟩ := r
    simp only [containsRecordsB, Bool.and_eq_true, decide_eq_true_eq] at hcont
    obtain ⟨⟨⟨⟨href, hsz⟩, hrefne⟩, hszpos⟩, hrest⟩ := hcont
    obtain ⟨f, rfl⟩ : ∃ f, fuel = f + 1 := by
      refine ⟨fuel - 1, ?_⟩
      have : 1 ≤ fuel := le_trans (by simp) hfuel
      omega
    have hestep : p + 12 + sz.toNat ≤ recordsExtent p ((ref, sz) :: rest) := by
      simpa [recordsExtent] using recordsExtent_ge rest (p + 12 + sz.toNat)
    have hsztn : 1 ≤ sz.toNat := by omega
    have hinB : p + 12 + sz.toNat ≤ B.length := le_trans hestep hext
    rw [parseTiles_succ]
    rw [if_neg (by unfold tileHeaderSize; omega)]
    rw [if_neg (by push_neg; rw [href, hsz]; exact ⟨hrefne, by omega⟩)]
    have hcast : ((readI32 B o (p + 8)) % (2 ^ 64 : Int)).toNat = sz.toNat :=
      dataSize_cast B o (p + 8) sz hsz hszpos
    rw [hcast]
    rw [if_neg (by unfold tileHeaderSize; omega)]
    have hoob1 : oobB B p tileHeaderSize = false := by
      unfold oobB tileHeaderSize
      simp only [decide_eq_false_iff_not]
      omega
    have hoob2 : oobB B (p + tileHeaderSize) sz.toNat = false := by
      unfold oobB tileHeaderSize
      simp only [decide_eq_false_iff_not]
      omega
    rw [hoob1, hoob2]
    simp only [Bool.or_false]
    have hih := ih (p + 12 + sz.toNat) f
      ((readU64 B o p, readBytes B o (p + tileHeaderSize) sz.toNat) :: acc) oobAcc
      hrest
      (by simpa [recordsExtent] using hext)
      (by simp only [List.length_cons] at hfuel; omega)
    obtain ⟨acc2, heq, hlen⟩ := hih
    refine ⟨acc2, ?_, ?_⟩
    · simpa [recordsExtent, tileHeaderSize, Nat.succ_sub_succ] using heq
    · simp only [List.length_cons] at hlen ⊢
      omega

theorem LoadParse_eq (content : List Nat) (oracle : Nat → Nat) (initOk : Bool) :
    LoadParse content oracle initOk =
      if readI32 content oracle 0 ≠ NAVMESHSET_MAGIC ∨
          readI32 content oracle 4 ≠ NAVMESHSET_VERSION then
        ⟨false, [], oobB content 0 headerSize⟩
      else if initOk = false then ⟨false, [], oobB content 0 headerSize⟩
      else parseTiles content oracle headerSize (readI32 content oracle 8).toNat []
        (oobB content 0 headerSize) := rfl

/-! ## Claim theorems for the loader -/

/-- C3: for a well-formed header declaring numTiles = k, truncating the buffer
    strictly before the declared end of tile i (the last of the `recs`
    records, `recs.length = i + 1 ≤ k`) makes `Load` fail, and the facade's
    previously loaded surface, query object, crowd and retained binary buffer
    are all left exactly as they were, so earlier path queries still behave
    identically. -/
theorem c3_truncation_safety (s : NavState) (B : List Nat) (oB oT : Nat → Nat)
    (initOk : Bool) (k : Int) (recs : List (Nat × Int)) (t : Nat)
    (hmagic : readI32 B oB 0 = NAVMESHSET_MAGIC)
    (hver : readI32 B oB 4 = NAVMESHSET_VERSION)
    (hnum : readI32 B oB 8 = k)
    (hrecs : recs ≠ [])
    (hcont : containsRecordsB B oB headerSize recs = true)
    (hk : recs.length ≤ k.toNat)
    (hext : recordsExtent headerSize recs ≤ B.length)
    (ht40 : headerSize ≤ t)
    (ht : t < recordsExtent headerSize recs) :
    (LoadParse (B.take t) oT initOk).ok = false ∧
    NavLoad s (B.take t) oT initOk = s ∧
    (∀ (q : NavQuery) (fromLoc toLoc : Vec3) (flt : Option QueryFilter),
      GetPath q (NavLoad s (B.take t) oT initOk).binaryMesh fromLoc toLoc flt =
        GetPath q s.binaryMesh fromLoc toLoc flt) := by
  have htB : t ≤ B.length := le_of_lt (lt_of_lt_of_le ht hext)
  have h40 : 40 ≤ t := ht40
  have hmT : readI32 (B.take t) oT 0 = NAVMESHSET_MAGIC := by
    rw [readI32_take B oB oT t 0 htB (by omega)]; exact hmagic
  have hvT : readI32 (B.take t) oT 4 = NAVMESHSET_VERSION := by
    rw [readI32_take B oB oT t 4 htB (by omega)]; exact hver
  have hnT : readI32 (B.take t) oT 8 = k := by
    rw [readI32_take B oB oT t 8 htB (by omega)]; exact hnum
  have hok : (LoadParse (B.take t) oT initOk).ok = false := by
    rw [LoadParse_eq]
    rw [if_neg (by push_neg; exact ⟨by rw [hmT], by rw [hvT]⟩)]
    cases initOk with
    | false => rfl
    | true =>
      rw [if_neg (by simp)]
      rw [hnT]
      exact parseTiles_trunc B oB oT recs headerSize k.toNat t [] _ hrecs hcont hk ht hext
  have hstate : NavLoad s (B.take t) oT initOk = s := by
    unfold NavLoad
    simp only [hok, Bool.false_eq_true, if_false]
  exact ⟨hok, hstate, fun q fromLoc toLoc flt => by rw [hstate]⟩

/-- C2 (amended): a tile record with `tileRef == 0 || dataSize == 0` ends tile
    reading early and `Load` succeeds with exactly the tiles read so far —
    provided at least one byte of buffer remains beyond the zero record's
    12-byte header, because the source checks `pos >= content.size()` before
    it tests the record for zero. -/
theorem c2_zero_record_terminates (B : List Nat) (o : Nat → Nat) (k : Int)
    (recs : List (Nat × Int)) (zref : Nat) (zsz : Int)
    (hmagic : readI32 B o 0 = NAVMESHSET_MAGIC)
    (hver : readI32 B o 4 = NAVMESHSET_VERSION)
    (hnum : readI32 B o 8 = k)
    (hcont : containsRecordsB B o headerSize recs = true)
    (hk : recs.length < k.toNat)
    (hzr : readU64 B o (recordsExtent headerSize recs) = zref)
    (hzs : readI32 B o (recordsExtent headerSize recs + 8) = zsz)
    (hzero : zref = 0 ∨ zsz = 0)
    (hroom : recordsExtent headerSize recs + tileHeaderSize < B.length) :
    (LoadParse B o true).ok = true ∧
    (LoadParse B o true).tiles.length = recs.length := by
  have hext : recordsExtent headerSize recs ≤ B.length := by
    unfold tileHeaderSize at hroom; omega
  obtain ⟨acc2, heq, hlen⟩ := parseTiles_walk B o recs headerSize
    (readI32 B o 8).toNat [] (oobB B 0 headerSize) hcont hext (by rw [hnum]; omega)
  obtain ⟨f, hf⟩ : ∃ f, (readI32 B o 8).toNat - recs.length = f + 1 :=
    ⟨(readI32 B o 8).toNat - recs.length - 1, by rw [hnum]; omega⟩
  have hLP : LoadParse B o true =
      ⟨true, acc2.reverse, oobB B 0 headerSize ||
        oobB B (recordsExtent headerSize recs) tileHeaderSize⟩ := by
    rw [LoadParse_eq]
    rw [if_neg (by push_neg; exact ⟨by rw [hmagic], by rw [hver]⟩)]
    rw [if_neg (by simp)]
    rw [heq, hf, parseTiles_succ]
    rw [if_neg (by unfold tileHeaderSize at hroom ⊢; omega)]
    rw [if_pos (by rw [hzr, hzs]; exact hzero)]
  rw [hLP]
  exact ⟨rfl, by simp [hlen]⟩

/-- C8: the header and tile-record reads happen before the corresponding
    bounds checks. First part: any buffer shorter than the 40-byte file header
    makes `Load` read past the end (whatever branch it then takes). Second
    part: a buffer that ends inside a tile-record header (between the
    declared end of the previous records and the 12 bytes of the next header)
    also makes the loop read past the end. -/
theorem c8_reads_before_bounds_check :
    (∀ (content : List Nat) (oracle : Nat → Nat) (initOk : Bool),
      content.length < headerSize →
      (LoadParse content oracle initOk).oobAccess = true) ∧
    (∀ (B : List Nat) (o : Nat → Nat) (k : Int) (recs : List (Nat × Int)),
      readI32 B o 0 = NAVMESHSET_MAGIC →
      readI32 B o 4 = NAVMESHSET_VERSION →
      readI32 B o 8 = k →
      containsRecordsB B o headerSize recs = true →
      recs.length < k.toNat →
      recordsExtent headerSize recs ≤ B.length →
      B.length < recordsExtent headerSize recs + tileHeaderSize →
      (LoadParse B o true).oobAccess = true) := by
  constructor
  · intro content oracle initOk hshort
    have hH : oobB content 0 headerSize = true := by
      unfold oobB
      simp only [decide_eq_true_eq]
      omega
    rw [LoadParse_eq]
    split
    · rw [hH]
    · split
      · rw [hH]
      · rw [hH]
        exact parseTiles_oob_mono content oracle _ _ _
  · intro B o k recs hmagic hver hnum hcont hk hext hshort
    obtain ⟨acc2, heq, hlen⟩ := parseTiles_walk B o recs headerSize
      (readI32 B o 8).toNat [] (oobB B 0 headerSize) hcont hext (by rw [hnum]; omega)
    obtain ⟨f, hf⟩ : ∃ f, (readI32 B o 8).toNat - recs.length = f + 1 :=
      ⟨(readI32 B o 8).toNat - recs.length - 1, by rw [hnum]; omega⟩
    rw [LoadParse_eq]
    rw [if_neg (by push_neg; exact ⟨by rw [hmagic], by rw [hver]⟩)]
    rw [if_neg (by simp)]
    rw [heq, hf, parseTiles_succ]
    rw [if_pos (by unfold tileHeaderSize at hshort ⊢; omega)]
    have : oobB B (recordsExtent headerSize recs) tileHeaderSize = true := by
      unfold oobB tileHeaderSize
      simp only [decide_eq_true_eq]
      unfold tileHeaderSize at hshort
      omega
    rw [this]
    simp

/-! ## Concrete buffers for the loader counterexamples and witnesses -/

/-- Little-endian serialization of a 32-bit value. -/
def u32le (n : Nat) : List Nat :=
  [n % 256, n / 256 % 256, n / 65536 % 256, n / 16777216 % 256]

/-- A valid 40-byte file header with the given tile count (params all zero; the
    engine's acceptance of the params is the separate `initOk` input). -/
def exHeader (numTiles : Nat) : List Nat :=
  u32le 1297302868 ++ u32le 1 ++ u32le numTiles ++ List.replicate 28 0

/-- Header declaring one tile, followed by a single all-zero tile record whose
    12 header bytes are exactly the last bytes of the buffer. -/
def exBufZeroAtEnd : List Nat := exHeader 1 ++ List.replicate 12 0

/-- Header declaring two tiles, one real record (ref 1, one data byte), then a
    zero record with one byte of buffer left after its header. -/
def exBufZeroPadded : List Nat :=
  exHeader 2 ++ (u32le 1 ++ u32le 0 ++ u32le 1) ++ [5] ++ List.replicate 12 0 ++ [0]

/-- Header declaring one tile plus a full record of 4 data bytes (56 bytes
    total); used truncated to 54 bytes. -/
def exBufOneTile : List Nat :=
  exHeader 1 ++ (u32le 1 ++ u32le 0 ++ u32le 4) ++ [9, 9, 9, 9]

/-- Header declaring two tiles, one full record, then 2 stray bytes — the
    buffer ends inside the second tile-record header. -/
def exBufRaggedTail : List Nat :=
  exHeader 2 ++ (u32le 1 ++ u32le 0 ++ u32le 1) ++ [5] ++ [7, 7]

/-- C2 counterexample: a buffer with valid magic and version whose single tile
    record is all-zero and is exactly the last 12 bytes of the buffer. The
    claim says `Load` succeeds treating it as end-of-tiles; the code's
    `pos >= content.size()` check runs first and `Load` returns false. -/
theorem c2_counterexample :
    readU64 exBufZeroAtEnd (fun _ => 0) 40 = 0 ∧
    readI32 exBufZeroAtEnd (fun _ => 0) 0 = NAVMESHSET_MAGIC ∧
    readI32 exBufZeroAtEnd (fun _ => 0) 4 = NAVMESHSET_VERSION ∧
    exBufZeroAtEnd.length = headerSize + tileHeaderSize ∧
    (LoadParse exBufZeroAtEnd (fun _ => 0) true).ok = false := by decide

/-- Witness for C2 (amended) at a concrete buffer. -/
theorem c2_zero_record_terminates_witness :
    (LoadParse exBufZeroPadded (fun _ => 0) true).ok = true ∧
    (LoadParse exBufZeroPadded (fun _ => 0) true).tiles.length = 1 :=
  c2_zero_record_terminates exBufZeroPadded (fun _ => 0) 2 [(1, 1)] 0 0
    (by decide) (by decide) (by decide) (by decide) (by decide) (by decide)
    (by decide) (Or.inl rfl) (by decide)

/-- Witness for C3 at a concrete buffer truncated 2 bytes short. -/
theorem c3_truncation_safety_witness :
    (LoadParse (exBufOneTile.take 54) (fun _ => 0) true).ok = false ∧
    NavLoad initState (exBufOneTile.take 54) (fun _ => 0) true = initState ∧
    (∀ (q : NavQuery) (fromLoc toLoc : Vec3) (flt : Option QueryFilter),
      GetPath q (NavLoad initState (exBufOneTile.take 54) (fun _ => 0) true).binaryMesh
          fromLoc toLoc flt =
        GetPath q initState.binaryMesh fromLoc toLoc flt) :=
  c3_truncation_safety initState exBufOneTile (fun _ => 0) (fun _ => 0) true 1
    [(1, 4)] 54 (by decide) (by decide) (by decide) (by decide) (by decide)
    (by decide) (by decide) (by decide) (by decide)

/-- Witness for C8: the empty buffer (shorter than the header), and a buffer
    ending inside the second tile-record header. -/
theorem c8_reads_before_bounds_check_witness :
    (LoadParse [] (fun _ => 0) true).oobAccess = true ∧
    (LoadParse exBufRaggedTail (fun _ => 0) true).oobAccess = true :=
  ⟨c8_reads_before_bounds_check.1 [] (fun _ => 0) true (by decide),
   c8_reads_before_bounds_check.2 exBufRaggedTail (fun _ => 0) 2 [(1, 1)]
     (by decide) (by decide) (by decide) (by decide) (by decide) (by decide)
     (by decide)⟩

/-! ## Claim theorems for the path query -/

/-- A concrete engine whose corridor search finds the single polygon 1 but
    whose straight-path simplification yields zero waypoints. -/
def exPathQuery : NavQuery :=
  ⟨fun _ _ _ => 1, fun _ _ _ _ _ => [1], fun _ p => p, fun _ _ _ => []⟩

/-- C1 counterexample: on a loaded buffer, with both endpoints resolving to
    polygon 1 and a one-polygon corridor, the simplification returns zero
    waypoints — and `GetPath` returns success with an empty waypoint sequence,
    not failure as the claim states. -/
theorem c1_counterexample :
    exPathQuery.findStraightPath ⟨0, 0, 0⟩ ⟨0, 0, 0⟩ [1] = [] ∧
    GetPath exPathQuery [1] ⟨0, 0, 0⟩ ⟨0, 0, 0⟩ none = some [] := ⟨rfl, rfl⟩

/-- C1 (amended): with a loaded buffer, both endpoints resolved and a
    nonempty polygon corridor, `GetPath` succeeds even when the straight-path
    simplification produces zero waypoints, returning `some []`: the source
    never re-checks `m_nstraightPath` after `findStraightPath`, so the only
    emptiness that fails is an empty polygon corridor. -/
theorem c1_empty_straight_path_is_success (q : NavQuery) (bm : List Nat)
    (fromLoc toLoc : Vec3) (flt : Option QueryFilter)
    (hbm : bm.length ≠ 0)
    (hstart : q.findNearestPoly (hostToEngine fromLoc) polyPickExt
      (flt.getD defaultFilter) ≠ 0)
    (hend : q.findNearestPoly (hostToEngine toLoc) polyPickExt
      (flt.getD defaultFilter) ≠ 0)
    (hpoly : q.findPath
      (q.findNearestPoly (hostToEngine fromLoc) polyPickExt (flt.getD defaultFilter))
      (q.findNearestPoly (hostToEngine toLoc) polyPickExt (flt.getD defaultFilter))
      (hostToEngine fromLoc) (hostToEngine toLoc) (flt.getD defaultFilter) ≠ [])
    (hsp : ∀ a b ps, q.findStraightPath a b ps = []) :
    GetPath q bm fromLoc toLoc flt = some [] := by
  simp only [hostToEngine] at hstart hend hpoly
  simp only [GetPath]
  rw [if_neg hbm]
  rw [if_neg (by push_neg; exact ⟨hstart, hend⟩)]
  rw [List.getLast?_eq_getLast _ hpoly]
  dsimp only
  rw [hsp]
  rfl

/-- C4: the host-to-engine and engine-to-host axis swaps are mutually inverse
    (each is an involution of the other), and `GetPath` is exactly that
    translation applied once to each input endpoint and once to each output
    waypoint around the untranslated engine-space query body. -/
theorem c4_coordinate_round_trip :
    (∀ v, engineToHost (hostToEngine v) = v) ∧
    (∀ v, hostToEngine (engineToHost v) = v) ∧
    (∀ (q : NavQuery) (bm : List Nat) (fromLoc toLoc : Vec3)
      (flt : Option QueryFilter),
      GetPath q bm fromLoc toLoc flt =
        if bm.length = 0 then none
        else (GetPathEngine q (hostToEngine fromLoc) (hostToEngine toLoc)
          (flt.getD defaultFilter)).map (List.map engineToHost)) := by
  refine ⟨fun v => rfl, fun v => rfl, fun q bm fromLoc toLoc flt => ?_⟩
  simp only [GetPath, GetPathEngine, hostToEngine, engineToHost]
  split
  · rfl
  · split
    · rfl
    · split <;> simp [Option.map, engineToHost]

/-- Witness for C1 (amended) at a concrete query and buffer. -/
theorem c1_empty_straight_path_is_success_witness :
    GetPath exPathQuery [1] ⟨0, 0, 0⟩ ⟨1, 2, 3⟩ none = some [] :=
  c1_empty_straight_path_is_success exPathQuery [1] ⟨0, 0, 0⟩ ⟨1, 2, 3⟩ none
    (by decide) (by decide) (by decide) (by decide) (fun _ _ _ => rfl)

/-! ## Claim theorems for the walker lifecycle -/

/-- Running `AddWalker` on a state whose crowd has a free slot: succeeds and installs
    the walker in the next slot. -/
theorem AddWalker_eq_of_free (s : NavState) (c : Crowd) (id : Nat)
    (fromLoc : Vec3) (off : ℚ)
    (hc : s.crowd = some c) (hlt : c.agents.length < MAX_AGENTS) :
    AddWalker s id fromLoc off =
      (true, { s with
        crowd := some ⟨c.agents ++
          [⟨hostToEngine fromLoc, ⟨0, 0, 0⟩, ⟨0, 0, 0⟩, walkerParams off, none, true⟩]⟩
        mappedId := mapSet s.mappedId id (c.agents.length : Int)
        baseHeight := mapSet s.baseHeight id off
        yawWalkers := mapSet s.yawWalkers id 0 }) := by
  unfold AddWalker
  rw [hc]
  dsimp only
  unfold Crowd.addAgent
  rw [if_pos hlt]
  dsimp only
  rw [if_neg (by omega)]

/-- Running `AddWalker` on a full crowd: the engine's addAgent returns the sentinel -1
    and the call fails with the state untouched. -/
theorem AddWalker_eq_of_full (s : NavState) (c : Crowd) (id : Nat)
    (fromLoc : Vec3) (off : ℚ)
    (hc : s.crowd = some c) (hfull : ¬ c.agents.length < MAX_AGENTS) :
    AddWalker s id fromLoc off = (false, s) := by
  unfold AddWalker
  rw [hc]
  dsimp only
  unfold Crowd.addAgent
  rw [if_neg hfull]
  dsimp only
  rw [if_pos rfl]

/-- Invariant of repeated `AddWalker` on a fresh crowd with injective
    identities: after `n` calls the pool holds `min n 500` active agents and
    identity `f k` maps to slot `k` for each `k` below that. -/
theorem addMany_inv (f : Nat → Nat) (hf : Function.Injective f) (pos : Vec3)
    (off : ℚ) (s : NavState) (hc : s.crowd = some ⟨[]⟩) :
    ∀ n, ∃ ags : List Agent,
      (addMany f pos off s n).crowd = some ⟨ags⟩ ∧
      ags.length = min n MAX_AGENTS ∧
      (∀ a ∈ ags, a.active = true) ∧
      (∀ k, k < min n MAX_AGENTS →
        (addMany f pos off s n).mappedId (f k) = some (k : Int)) := by
  intro n
  induction n with
  | zero =>
    refine ⟨[], by simpa [addMany] using hc, by simp, by simp, by simp⟩
  | succ n ih =>
    obtain ⟨ags, hcr, hlen, hact, hmap⟩ := ih
    by_cases hn : n < MAX_AGENTS
    · have hlt : ags.length < MAX_AGENTS := by omega
      have hstep := AddWalker_eq_of_free (addMany f pos off s n) ⟨ags⟩ (f n) pos off
        hcr hlt
      refine ⟨ags ++ [⟨hostToEngine pos, ⟨0, 0, 0⟩, ⟨0, 0, 0⟩, walkerParams off,
        none, true⟩], ?_, ?_, ?_, ?_⟩
      · show (AddWalker (addMany f pos off s n) (f n) pos off).2.crowd = _
        rw [hstep]
      · simp only [List.length_append, List.length_cons, List.length_nil]
        omega
      · intro a ha
        rcases List.mem_append.mp ha with h | h
        · exact hact a h
        · simp only [List.mem_singleton] at h
          rw [h]
      · intro k hk
        show (AddWalker (addMany f pos off s n) (f n) pos off).2.mappedId (f k) = _
        rw [hstep]
        dsimp only
        unfold mapSet
        by_cases hkn : k = n
        · subst hkn
          rw [if_pos rfl, hlen]
          congr 1
          omega
        · rw [if_neg (fun h => hkn (hf h))]
          exact hmap k (by omega)
    · have hfull : ¬ ags.length < MAX_AGENTS := by omega
      have hstep := AddWalker_eq_of_full (addMany f pos off s n) ⟨ags⟩ (f n) pos off
        hcr hfull
      refine ⟨ags, ?_, ?_, hact, ?_⟩
      · show (AddWalker (addMany f pos off s n) (f n) pos off).2.crowd = _
        rw [hstep]
        exact hcr
      · omega
      · intro k hk
        show (AddWalker (addMany f pos off s n) (f n) pos off).2.mappedId (f k) = _
        rw [hstep]
        exact hmap k (by omega)

/-- C5: with the pool configured at capacity 500 (`MAX_AGENTS`), the first 500
    `AddWalker` calls with distinct identities succeed, every call from the
    501st onward fails (the modelled `dtCrowd::addAgent` having returned -1),
    and every previously added walker keeps its slot: its identity still maps
    to it and the slot still holds an active agent. -/
theorem c5_capacity_bound (f : Nat → Nat) (hf : Function.Injective f)
    (pos : Vec3) (off : ℚ) (s : NavState) (hc : s.crowd = some ⟨[]⟩) :
    (∀ k, k < 500 → (AddWalker (addMany f pos off s k) (f k) pos off).1 = true) ∧
    (∀ k, 500 ≤ k → (AddWalker (addMany f pos off s k) (f k) pos off).1 = false) ∧
    (∀ n k, k < n → k < 500 →
      (addMany f pos off s n).mappedId (f k) = some (k : Int) ∧
      ∃ (c : Crowd) (a : Agent), (addMany f pos off s n).crowd = some c ∧
        c.agents[k]? = some a ∧ a.active = true) := by
  have hM : MAX_AGENTS = 500 := rfl
  refine ⟨?_, ?_, ?_⟩
  · intro k hk
    obtain ⟨ags, hcr, hlen, -, -⟩ := addMany_inv f hf pos off s hc k
    have hlt : ags.length < MAX_AGENTS := by omega
    rw [AddWalker_eq_of_free (addMany f pos off s k) ⟨ags⟩ (f k) pos off hcr hlt]
  · intro k hk
    obtain ⟨ags, hcr, hlen, -, -⟩ := addMany_inv f hf pos off s hc k
    have hfull : ¬ ags.length < MAX_AGENTS := by omega
    rw [AddWalker_eq_of_full (addMany f pos off s k) ⟨ags⟩ (f k) pos off hcr hfull]
  · intro n k hkn hk500
    obtain ⟨ags, hcr, hlen, hact, hmap⟩ := addMany_inv f hf pos off s hc n
    have hkm : k < min n MAX_AGENTS := by omega
    have hkl : k < ags.length := by omega
    refine ⟨hmap k hkm, ⟨ags⟩, ags[k], hcr, ?_, ?_⟩
    · exact List.getElem?_eq_getElem hkl
    · exact hact _ (ags.getElem_mem hkl)

/-- Witness for C5: on a fresh crowd with identities 0, 1, 2, ..., the first
    call succeeds and walker 0 survives later calls. -/
theorem c5_capacity_bound_witness :
    (AddWalker (addMany (fun i => i) ⟨0, 0, 0⟩ 1
      { initState with crowd := some ⟨[]⟩ } 0) 0 ⟨0, 0, 0⟩ 1).1 = true ∧
    (addMany (fun i => i) ⟨0, 0, 0⟩ 1
      { initState with crowd := some ⟨[]⟩ } 3).mappedId 0 = some 0 :=
  ⟨(c5_capacity_bound (fun i => i) (fun _ _ h => h) ⟨0, 0, 0⟩ 1
      { initState with crowd := some ⟨[]⟩ } rfl).1 0 (by decide),
   ((c5_capacity_bound (fun i => i) (fun _ _ h => h) ⟨0, 0, 0⟩ 1
      { initState with crowd := some ⟨[]⟩ } rfl).2.2 3 0 (by decide) (by decide)).1⟩

/-- C6: every per-walker operation called with an identity that was never
    passed to `AddWalker` (so absent from `_mappedId`) fails to the caller —
    `SetWalkerTarget` returns false, `GetWalkerTransform` returns no
    transform, `GetWalkerSpeed` returns its failure value 0 — and the whole
    facade state (identity map, auxiliary maps, every agent) is unchanged. -/
theorem c6_unknown_identity (q : NavQuery) (at2 : ℚ → ℚ → ℚ) (s : NavState)
    (id : Nat) (toLoc : Vec3) (h : s.mappedId id = none) :
    SetWalkerTarget q s id toLoc = (false, s) ∧
    GetWalkerTransform at2 s id = (none, s) ∧
    GetWalkerSpeed s id = 0 := by
  unfold SetWalkerTarget GetWalkerTransform GetWalkerSpeed
  rw [h]
  exact ⟨rfl, rfl, rfl⟩

/-- Witness for C6 at the fresh state and identity 5. -/
theorem c6_unknown_identity_witness :
    SetWalkerTarget exPathQuery initState 5 ⟨0, 0, 0⟩ = (false, initState) ∧
    GetWalkerTransform (fun _ _ => 0) initState 5 = (none, initState) ∧
    GetWalkerSpeed initState 5 = 0 :=
  c6_unknown_identity exPathQuery (fun _ _ => 0) initState 5 ⟨0, 0, 0⟩ rfl

/-- C9: `GetWalkerSpeed` has no distinct failure channel. An unknown identity
    (or one mapped to the invalid slot -1) yields the value 0 — the C++
    `return false` converted to `0.0f` — and a genuinely stationary walker
    (zero velocity) also yields exactly 0, so the two are indistinguishable. -/
theorem c9_speed_no_failure_channel (s : NavState) (id : Nat) :
    ((s.mappedId id = none ∨ s.mappedId id = some (-1)) →
      GetWalkerSpeed s id = 0) ∧
    (∀ (idx : Int) (a : Agent), s.mappedId id = some idx →
      (s.crowd.bind fun c => c.getAgent idx) = some a →
      a.vel = ⟨0, 0, 0⟩ → GetWalkerSpeed s id = 0) := by
  constructor
  · rintro (h | h) <;> simp [GetWalkerSpeed, h]
  · intro idx a hm ha hv
    unfold GetWalkerSpeed
    rw [hm]
    dsimp only
    by_cases hneg : idx = -1
    · rw [if_pos hneg]
    · rw [if_neg hneg, ha]
      dsimp only
      rw [hv]
      norm_num

/-- Witness for C9: identity 5 was never added (speed 0), and identity 7 is a
    stationary walker in slot 0 (speed also 0). -/
theorem c9_speed_no_failure_channel_witness :
    GetWalkerSpeed initState 5 = 0 ∧
    GetWalkerSpeed { initState with
      crowd := some ⟨[⟨⟨0, 0, 0⟩, ⟨0, 0, 0⟩, ⟨0, 0, 0⟩, walkerParams 1, none, true⟩]⟩
      mappedId := mapSet initState.mappedId 7 0 } 7 = 0 :=
  ⟨(c9_speed_no_failure_channel initState 5).1 (Or.inl rfl),
   (c9_speed_no_failure_channel _ 7).2 0
     ⟨⟨0, 0, 0⟩, ⟨0, 0, 0⟩, ⟨0, 0, 0⟩, walkerParams 1, none, true⟩ rfl rfl rfl⟩

/-- The smoothed yaw a successful `GetWalkerTransform` call both returns and
    stores back into `yaw_walkers` (Navigation.cpp:401-406):
    `yaw_old + (fmod(yaw - yaw_old + 540, 360) - 180) * 4 * delta`. -/
def newYaw (at2 : ℚ → ℚ → ℚ) (s : NavState) (id : Nat) (a : Agent) : ℚ :=
  (s.yawWalkers id).getD 0 +
    (fmodQ (at2 a.dvel.z a.dvel.x - (s.yawWalkers id).getD 0 + 540) 360 - 180) *
      4 * s.deltaSeconds

/-- Computation of a successful `GetWalkerTransform` call. -/
theorem GetWalkerTransform_eq (at2 : ℚ → ℚ → ℚ) (s : NavState) (id : Nat)
    (idx : Int) (a : Agent)
    (hm : s.mappedId id = some idx) (hidx : idx ≠ -1)
    (ha : (s.crowd.bind fun c => c.getAgent idx) = some a)
    (hact : a.active = true) :
    GetWalkerTransform at2 s id =
      (some ⟨⟨a.npos.x, a.npos.z, a.npos.y + (s.baseHeight id).getD 0 - 2 / 25⟩,
        newYaw at2 s id a⟩,
       { s with yawWalkers := mapSet s.yawWalkers id (newYaw at2 s id a) }) := by
  unfold GetWalkerTransform newYaw
  rw [hm]
  dsimp only
  rw [if_neg hidx, ha]
  dsimp only
  rw [hact]
  rw [if_neg (by simp)]

/-- C10 (amended): `GetWalkerTransform` is not read-only — every successful
    call stores the returned smoothed yaw back into the per-walker heading map
    while every other walker's stored heading and all other facade state stay
    unchanged; a second call on the identical underlying agent state then
    returns a different yaw whenever the last tick's delta time is nonzero
    and the first call did not land exactly on the smoothing fixed point
    (`fmod(target - stored + 540, 360) = 180`, e.g. a walker already facing
    its velocity heading, where consecutive calls return equal yaws). -/
theorem c10_transform_mutates_heading (at2 : ℚ → ℚ → ℚ) (s : NavState)
    (id : Nat) (idx : Int) (a : Agent)
    (hm : s.mappedId id = some idx) (hidx : idx ≠ -1)
    (ha : (s.crowd.bind fun c => c.getAgent idx) = some a)
    (hact : a.active = true) :
    ∃ t s1, GetWalkerTransform at2 s id = (some t, s1) ∧
      s1.yawWalkers id = some t.yaw ∧
      (∀ j, j ≠ id → s1.yawWalkers j = s.yawWalkers j) ∧
      s1.crowd = s.crowd ∧ s1.mappedId = s.mappedId ∧
      s1.baseHeight = s.baseHeight ∧ s1.deltaSeconds = s.deltaSeconds ∧
      ∃ t2 s2, GetWalkerTransform at2 s1 id = (some t2, s2) ∧
        (s.deltaSeconds ≠ 0 →
          fmodQ (at2 a.dvel.z a.dvel.x - t.yaw + 540) 360 ≠ 180 →
          t2.yaw ≠ t.yaw) := by
  have h1 := GetWalkerTransform_eq at2 s id idx a hm hidx ha hact
  refine ⟨_, _, h1, by simp [mapSet], fun j hj => by simp [mapSet, hj],
    rfl, rfl, rfl, rfl, ?_⟩
  have hm1 : ({ s with yawWalkers := mapSet s.yawWalkers id (newYaw at2 s id a) }
      : NavState).mappedId id = some idx := hm
  have ha1 : (({ s with yawWalkers := mapSet s.yawWalkers id (newYaw at2 s id a) }
      : NavState).crowd.bind fun c => c.getAgent idx) = some a := ha
  have h2 := GetWalkerTransform_eq at2 _ id idx a hm1 hidx ha1 hact
  refine ⟨_, _, h2, ?_⟩
  intro hd hfix
  dsimp only at hfix ⊢
  have hy1 : (({ s with yawWalkers := mapSet s.yawWalkers id (newYaw at2 s id a) }
      : NavState).yawWalkers id).getD 0 = newYaw at2 s id a := by
    simp [mapSet]
  rw [newYaw, hy1]
  rw [show ({ s with yawWalkers := mapSet s.yawWalkers id (newYaw at2 s id a) }
      : NavState).deltaSeconds = s.deltaSeconds from rfl]
  intro hcontra
  have hzero : (fmodQ (at2 a.dvel.z a.dvel.x - newYaw at2 s id a + 540) 360 - 180) *
      4 * s.deltaSeconds = 0 := by linarith
  rcases mul_eq_zero.mp hzero with h4 | h0
  · rcases mul_eq_zero.mp h4 with hfz | h4'
    · exact hfix (by linarith)
    · norm_num at h4'
  · exact hd h0

/-- An agent walking east: desired velocity (1, 0, 0), so the velocity yaw
    `atan2(dvel[2], dvel[0]) * 180 / pi` is 0. -/
def exAgentEast : Agent := ⟨⟨0, 0, 0⟩, ⟨0, 0, 0⟩, ⟨1, 0, 0⟩, walkerParams 1, none, true⟩

/-- A walker already facing its desired velocity heading (stored heading 0 =
    velocity yaw 0), with delta time 1. -/
def exStateEquil : NavState :=
  { initState with
    crowd := some ⟨[exAgentEast]⟩
    mappedId := mapSet initState.mappedId 7 0
    baseHeight := mapSet initState.baseHeight 7 1
    yawWalkers := mapSet initState.yawWalkers 7 0
    deltaSeconds := 1 }

theorem floor_540_div_360 : ⌊(540 : ℚ) / 360⌋ = 1 := by
  rw [Int.floor_eq_iff]
  constructor <;> norm_num

theorem fmodQ_540_360 : fmodQ 540 360 = 180 := by
  unfold fmodQ
  rw [if_neg (by norm_num), floor_540_div_360]
  norm_num

/-- The smoothing step at the fixed point: stored heading 0, velocity yaw 0,
    delta 1 gives a new yaw of exactly 0 again. -/
theorem newYaw_equil : newYaw (fun _ _ => 0) exStateEquil 7 exAgentEast = 0 := by
  unfold newYaw
  have h1 : (exStateEquil.yawWalkers 7).getD 0 = 0 := rfl
  have h2 : exStateEquil.deltaSeconds = 1 := rfl
  rw [h1, h2]
  rw [show (fun _ _ => (0 : ℚ)) exAgentEast.dvel.z exAgentEast.dvel.x - 0 + 540 =
    540 by norm_num]
  rw [fmodQ_540_360]
  norm_num

/-- The facade state after the first call on `exStateEquil`. -/
def exStateEquil2 : NavState :=
  { exStateEquil with yawWalkers := mapSet exStateEquil.yawWalkers 7 (newYaw (fun _ _ => 0) exStateEquil 7 exAgentEast) }

/-- C10 counterexample: at the smoothing fixed point (stored heading equals
    the velocity heading, delta time 1) two successive `GetWalkerTransform`
    calls with an identical underlying agent state both return yaw 0 — equal,
    not different, yaw values. -/
theorem c10_counterexample :
    (GetWalkerTransform (fun _ _ => 0) exStateEquil 7).1.map Transform.yaw =
      some 0 ∧
    (GetWalkerTransform (fun _ _ => 0)
      (GetWalkerTransform (fun _ _ => 0) exStateEquil 7).2 7).1.map Transform.yaw =
      some 0 := by
  have h1 := GetWalkerTransform_eq (fun _ _ => 0) exStateEquil 7 0 exAgentEast
    rfl (by decide) rfl rfl
  have hs2 : (GetWalkerTransform (fun _ _ => 0) exStateEquil 7).2 = exStateEquil2 := by
    rw [h1]
    rfl
  have hyw : (exStateEquil2.yawWalkers 7).getD 0 = 0 := by
    simp [exStateEquil2, mapSet, newYaw_equil]
  have hny2 : newYaw (fun _ _ => 0) exStateEquil2 7 exAgentEast = 0 := by
    unfold newYaw
    rw [hyw]
    rw [show exStateEquil2.deltaSeconds = 1 from rfl]
    rw [show (fun _ _ => (0 : ℚ)) exAgentEast.dvel.z exAgentEast.dvel.x - 0 + 540 =
      540 by norm_num]
    rw [fmodQ_540_360]
    norm_num
  have h2 := GetWalkerTransform_eq (fun _ _ => 0) exStateEquil2 7 0 exAgentEast
    rfl (by decide) rfl rfl
  constructor
  · rw [h1]
    simp [newYaw_equil]
  · rw [hs2, h2]
    simp [hny2]

/-- Witness for C10 (amended): the east-facing walker with stored heading 90
    (not at the fixed point) and delta time 1. -/
theorem c10_transform_mutates_heading_witness :
    ∃ t s1, GetWalkerTransform (fun _ _ => 0)
        { exStateEquil with yawWalkers := mapSet initState.yawWalkers 7 90 } 7 =
        (some t, s1) ∧
      s1.yawWalkers 7 = some t.yaw ∧
      (∀ j, j ≠ 7 → s1.yawWalkers j =
        ({ exStateEquil with yawWalkers := mapSet initState.yawWalkers 7 90 }
          : NavState).yawWalkers j) ∧
      s1.crowd = ({ exStateEquil with yawWalkers := mapSet initState.yawWalkers 7 90 }
        : NavState).crowd ∧
      s1.mappedId = ({ exStateEquil with yawWalkers := mapSet initState.yawWalkers 7 90 }
        : NavState).mappedId ∧
      s1.baseHeight = ({ exStateEquil with yawWalkers := mapSet initState.yawWalkers 7 90 }
        : NavState).baseHeight ∧
      s1.deltaSeconds = ({ exStateEquil with yawWalkers := mapSet initState.yawWalkers 7 90 }
        : NavState).deltaSeconds ∧
      ∃ t2 s2, GetWalkerTransform (fun _ _ => 0) s1 7 = (some t2, s2) ∧
        (({ exStateEquil with yawWalkers := mapSet initState.yawWalkers 7 90 }
            : NavState).deltaSeconds ≠ 0 →
          fmodQ ((fun _ _ => (0 : ℚ)) exAgentEast.dvel.z exAgentEast.dvel.x -
            t.yaw + 540) 360 ≠ 180 →
          t2.yaw ≠ t.yaw) :=
  c10_transform_mutates_heading (fun _ _ => 0)
    { exStateEquil with yawWalkers := mapSet initState.yawWalkers 7 90 } 7 0
    exAgentEast rfl (by decide) rfl rfl

/-! ## Claim theorems for random location sampling -/

theorem randomLoop_succ (samples : Nat → Option Vec3) (m : ℚ) (k f : Nat) :
    randomLoop samples m k (f + 1) =
      match samples k with
      | none => randomLoop samples m (k + 1) f
      | some p =>
        if m = -1 ∨ (0 ≤ m ∧ p.y ≤ m) then some ⟨p.x, p.z, p.y⟩
        else randomLoop samples m (k + 1) f := rfl

/-- Soundness of the sampling loop: any returned location satisfies the height
    bound (when one was given) and is the engine-to-host translation of some
    successful sample at or after the start index. -/
theorem randomLoop_sound (samples : Nat → Option Vec3) (m : ℚ) :
    ∀ (fuel k : Nat) (loc : Vec3), randomLoop samples m k fuel = some loc →
      (0 ≤ m → loc.z ≤ m) ∧
      ∃ j p, k ≤ j ∧ samples j = some p ∧ loc = engineToHost p := by
  intro fuel
  induction fuel with
  | zero => intro k loc h; cases h
  | succ f ih =>
    intro k loc h
    rw [randomLoop_succ] at h
    cases hs : samples k with
    | none =>
      rw [hs] at h
      obtain ⟨h1, j, p, hj, hp, hl⟩ := ih (k + 1) loc h
      exact ⟨h1, j, p, by omega, hp, hl⟩
    | some p =>
      rw [hs] at h
      dsimp only at h
      by_cases hcond : m = -1 ∨ (0 ≤ m ∧ p.y ≤ m)
      · rw [if_pos hcond] at h
        injection h with h
        constructor
        · intro hm
          rcases hcond with hm1 | ⟨-, hz⟩
          · rw [hm1] at hm; norm_num at hm
          · rw [← h]; exact hz
        · exact ⟨k, p, le_rfl, hs, by rw [← h]; rfl⟩
      · rw [if_neg hcond] at h
        obtain ⟨h1, j, p', hj, hp, hl⟩ := ih (k + 1) loc h
        exact ⟨h1, j, p', by omega, hp, hl⟩

/-- With the unbounded sentinel -1, the loop returns the translation of the
    first successful sample. -/
theorem randomLoop_first (samples : Nat → Option Vec3) :
    ∀ (fuel k : Nat) (loc : Vec3), randomLoop samples (-1) k fuel = some loc →
      ∀ j p, k ≤ j → samples j = some p →
      (∀ i, k ≤ i → i < j → samples i = none) →
      loc = engineToHost p := by
  intro fuel
  induction fuel with
  | zero => intro k loc h; cases h
  | succ f ih =>
    intro k loc h j p hkj hj hmin
    rw [randomLoop_succ] at h
    cases hs : samples k with
    | none =>
      rw [hs] at h
      have hkj1 : k + 1 ≤ j := by
        rcases Nat.eq_or_lt_of_le hkj with heq | hlt
        · rw [← heq, hs] at hj; cases hj
        · omega
      exact ih (k + 1) loc h j p hkj1 hj (fun i hi1 hi2 => hmin i (by omega) hi2)
    | some p0 =>
      rw [hs] at h
      dsimp only at h
      rw [if_pos (Or.inl rfl)] at h
      have hjk : j = k := by
        by_contra hne
        have hlt : k < j := lt_of_le_of_ne hkj (Ne.symm hne)
        have hnone := hmin k le_rfl hlt
        rw [hs] at hnone
        cases hnone
      subst hjk
      rw [hs] at hj
      injection hj with hpp
      subst hpp
      injection h with h
      rw [← h]
      rfl

/-- C7: whenever `GetRandomLocationWithoutLock` returns (the source's loop
    exits, reporting success): under a height bound `m >= 0` the returned
    vertical coordinate is at or below `m`; the location is always the
    translation of a successful engine sample, hence (given the engine's
    guarantee, the predicate `W`) lies on a walkable polygon; and under the
    unbounded sentinel -1 the first successful sample is returned
    immediately. -/
theorem c7_random_location (samples : Nat → Option Vec3) (W : Vec3 → Prop)
    (m : ℚ) (fuel : Nat) (loc : Vec3)
    (hW : ∀ k p, samples k = some p → W p)
    (h : GetRandomLocationWithoutLock samples m fuel = some loc) :
    (0 ≤ m → loc.z ≤ m) ∧
    (∃ k p, samples k = some p ∧ loc = engineToHost p ∧ W p) ∧
    (m = -1 → ∀ j p, samples j = some p → (∀ i, i < j → samples i = none) →
      loc = engineToHost p) := by
  obtain ⟨h1, j, p, hj, hp, hl⟩ := randomLoop_sound samples m fuel 0 loc h
  refine ⟨h1, ⟨j, p, hp, hl, hW j p hp⟩, ?_⟩
  rintro rfl j' p' hp' hmin
  exact randomLoop_first samples fuel 0 loc h j' p' (Nat.zero_le _) hp'
    (fun i _ hi => hmin i hi)

/-- Witness for C7: a constant sampler returning the engine point (1, 2, 3),
    height bound 5. -/
theorem c7_random_location_witness :
    ((0 : ℚ) ≤ 5 → (Vec3.mk 1 3 2).z ≤ 5) ∧
    (∃ k p, (fun _ : Nat => some (Vec3.mk 1 2 3)) k = some p ∧
      Vec3.mk 1 3 2 = engineToHost p ∧ True) ∧
    ((5 : ℚ) = -1 → ∀ j p, (fun _ : Nat => some (Vec3.mk 1 2 3)) j = some p →
      (∀ i, i < j → (fun _ : Nat => some (Vec3.mk 1 2 3)) i = none) →
      Vec3.mk 1 3 2 = engineToHost p) :=
  c7_random_location (fun _ => some ⟨1, 2, 3⟩) (fun _ => True) 5 1 ⟨1, 3, 2⟩
    (fun _ _ _ => trivial) (by decide)

end CarlaNav
